import Mathlib

/-!
Verification development for the smock-viem-example repository: a shallow
embedding of the time-locked vault ("Lock") exercised by the test suite in
src/test/SmockLock.ts, together with the mock-stub-reset layer that the
tests drive through the smock library, and the fixture constants taken
verbatim from the test source.
-/

namespace SmockViem

/-- Account identities; the tests only compare them for equality. -/
abbrev Address := Nat

/-- Modelled from the spec: the Lock contract (not present under src/; only
its tests are). Attributes `unlockTime` (timestamp), `owner` (account
identity) and an implicit native-currency balance. -/
structure Lock where
  unlockTime : Nat
  owner : Address
  balance : Nat
deriving Repr, DecidableEq

/-- Events a contract call can emit; the tests observe only `Withdrawal`,
carrying the withdrawn amount. -/
inductive Event where
  | Withdrawal (amount : Nat)
deriving Repr, DecidableEq

/-- Modelled from the spec: deployment of Lock takes an unlock timestamp
and an attached value; `unlockTime` must be strictly in the future at
construction time, otherwise deployment reverts with
"Unlock time should be in the future". The deploying account becomes the
owner and the attached value the balance. -/
def deployLock (now unlockT : Nat) (deployer : Address) (value : Nat) :
    Except String Lock :=
  if now < unlockT then
    Except.ok { unlockTime := unlockT, owner := deployer, balance := value }
  else
    Except.error "Unlock time should be in the future"

/-- Modelled from the spec: `withdraw()` reverts with
"You can't withdraw yet" when the current time is before `unlockTime`,
reverts with "You aren't the owner" when the caller is not the owner, and
otherwise succeeds, setting the balance to 0 and emitting one `Withdrawal`
event carrying the withdrawn amount. -/
def Lock.withdraw (l : Lock) (now : Nat) (caller : Address) :
    Except String (Lock × List Event) :=
  if now < l.unlockTime then
    Except.error "You can't withdraw yet"
  else if caller = l.owner then
    Except.ok ({ l with balance := 0 }, [Event.Withdrawal l.balance])
  else
    Except.error "You aren't the owner"

/-- Modelled from the spec: a smock fake wraps a deployed Lock and carries
an optional stubbed revert message for its `withdraw` method. A freshly
mocked deployment has no stub. -/
structure FakeLock where
  lock : Lock
  withdrawStub : Option String
deriving Repr, DecidableEq

/-- Modelled from the spec: `stub(methodRef, errorMessage)` — after
`fakeLock.withdraw.reverts(msg)`, subsequent calls to `withdraw` always
fail with `msg` regardless of real preconditions. -/
def FakeLock.withdrawReverts (f : FakeLock) (msg : String) : FakeLock :=
  { f with withdrawStub := some msg }

/-- Modelled from the spec: `reset(methodRef)` — after
`fakeLock.withdraw.reset()`, subsequent calls resume real contract
logic. -/
def FakeLock.withdrawReset (f : FakeLock) : FakeLock :=
  { f with withdrawStub := none }

/-- Modelled from the spec: calling `withdraw` on a mocked Lock. With a
stub installed the call fails with the stubbed message; otherwise the real
contract logic runs. -/
def FakeLock.withdraw (f : FakeLock) (now : Nat) (caller : Address) :
    Except String (FakeLock × List Event) :=
  match f.withdrawStub with
  | some msg => Except.error msg
  | none =>
      match f.lock.withdraw now caller with
      | Except.ok (l2, evs) => Except.ok ({ f with lock := l2 }, evs)
      | Except.error e => Except.error e

/-- From src/test/SmockLock.ts: `ONE_YEAR_IN_SECS = 365 * 24 * 60 * 60`. -/
def ONE_YEAR_IN_SECS : Nat := 365 * 24 * 60 * 60

/-- Modelled from the spec: viem's `parseEther "1"` — one ether in wei. -/
def parseEtherOne : Nat := 10 ^ 18

/-- From src/test/SmockLock.ts: `lockedAmount = parseEther("1")`. -/
def lockedAmount : Nat := parseEtherOne

/-- From src/test/SmockLock.ts: the hexadecimal literal passed to
`hardhat_setBalance` in the fixture. -/
def setBalanceLiteral : Nat := 0x0de0b6b3a7640000

/-- From src/test/SmockLock.ts: the mocked deployment
`lockFactory.deploy(unlockTime)` attaches no value. -/
def fixtureDeployValue : Nat := 0

/-- Modelled from the spec: the balance-injection interface
`hardhat_setBalance` directly sets an address's native balance. -/
def hardhat_setBalance (f : FakeLock) (v : Nat) : FakeLock :=
  { f with lock := { f.lock with balance := v } }

/-- From src/test/SmockLock.ts: the fixture `deployOneYearLockFixture`
deploys a mocked Lock (no attached value) with unlock time one year from
the latest block time, then injects a balance of `0x0de0b6b3a7640000`
wei. -/
def deployOneYearLockFixture (now : Nat) (ownerAddr : Address) :
    Except String FakeLock :=
  match deployLock now (now + ONE_YEAR_IN_SECS) ownerAddr fixtureDeployValue with
  | Except.ok l => Except.ok (hardhat_setBalance ⟨l, none⟩ setBalanceLiteral)
  | Except.error e => Except.error e

/-- Helper: the fixture always succeeds and yields the mocked lock with the
injected balance, no stub, owner set to the deployer, and unlock time one
year ahead. -/
theorem deployOneYearLockFixture_eq (now : Nat) (ownerAddr : Address) :
    deployOneYearLockFixture now ownerAddr
      = Except.ok ⟨⟨now + ONE_YEAR_IN_SECS, ownerAddr, setBalanceLiteral⟩, none⟩ := by
  have h : now < now + ONE_YEAR_IN_SECS := by simp [ONE_YEAR_IN_SECS]
  simp [deployOneYearLockFixture, deployLock, hardhat_setBalance, h]

/-- Claim C1: after stubbing withdraw with an error message, every
subsequent call to withdraw — from any caller and at any simulated time,
including before `unlockTime` — fails with exactly the stubbed error
message, overriding the real precondition logic. -/
theorem stubbed_withdraw_always_fails_with_stub (f : FakeLock) (msg : String)
    (now : Nat) (caller : Address) :
    (f.withdrawReverts msg).withdraw now caller = Except.error msg := rfl

/-- Claim C2: resetting a stubbed method is a round-trip back to the
original behavior: after stub-then-reset, withdraw behaves identically to a
never-stubbed contract — reverting with "You can't withdraw yet" before
`unlockTime` and succeeding for the owner once time has reached
`unlockTime`. -/
theorem reset_restores_original_behavior (f : FakeLock) (msg : String)
    (now : Nat) (caller : Address) :
    ((f.withdrawReverts msg).withdrawReset).withdraw now caller
        = (FakeLock.mk f.lock none).withdraw now caller
      ∧ (now < f.lock.unlockTime →
          ((f.withdrawReverts msg).withdrawReset).withdraw now caller
            = Except.error "You can't withdraw yet")
      ∧ (f.lock.unlockTime ≤ now → caller = f.lock.owner →
          ((f.withdrawReverts msg).withdrawReset).withdraw now caller
            = Except.ok (⟨{ f.lock with balance := 0 }, none⟩,
                [Event.Withdrawal f.lock.balance])) := by
  refine ⟨rfl, ?_, ?_⟩
  · intro h
    simp [FakeLock.withdrawReverts, FakeLock.withdrawReset, FakeLock.withdraw,
      Lock.withdraw, h]
  · intro h hc
    simp [FakeLock.withdrawReverts, FakeLock.withdrawReset, FakeLock.withdraw,
      Lock.withdraw, Nat.not_lt.mpr h, hc]

/-- Witness for C2 at a concrete fake lock: before the unlock time the
reset fake reverts with the real guard message, and at the unlock time the
owner's call succeeds. -/
theorem reset_restores_original_behavior_witness :
    ((((⟨⟨100, 7, 5⟩, none⟩ : FakeLock).withdrawReverts "oops").withdrawReset).withdraw 50 7
        = Except.error "You can't withdraw yet")
      ∧ ((((⟨⟨100, 7, 5⟩, none⟩ : FakeLock).withdrawReverts "oops").withdrawReset).withdraw 100 7
        = Except.ok (⟨⟨100, 7, 0⟩, none⟩, [Event.Withdrawal 5])) := by
  constructor
  · exact (reset_restores_original_behavior ⟨⟨100, 7, 5⟩, none⟩ "oops" 50 7).2.1
      (by decide)
  · exact (reset_restores_original_behavior ⟨⟨100, 7, 5⟩, none⟩ "oops" 100 7).2.2
      (by decide) rfl

/-- Claim C3: for every unlock timestamp not strictly greater than the
current block timestamp, deploying the Lock contract with that timestamp
and any attached value fails with exactly
"Unlock time should be in the future". -/
theorem deploy_not_future_fails (now unlockT : Nat) (deployer : Address)
    (value : Nat) (h : unlockT ≤ now) :
    deployLock now unlockT deployer value
      = Except.error "Unlock time should be in the future" := by
  simp [deployLock, Nat.not_lt.mpr h]

/-- Witness for C3: deploying at time 5 with unlock time 5 fails. -/
theorem deploy_not_future_fails_witness :
    (5 : Nat) ≤ 5
      ∧ deployLock 5 5 0 1 = Except.error "Unlock time should be in the future" :=
  ⟨by decide, deploy_not_future_fails 5 5 0 1 (by decide)⟩

/-- Claim C4: for every caller, calling withdraw while the current block
timestamp is strictly less than `unlockTime` fails with exactly
"You can't withdraw yet", both on the raw contract and through an
unstubbed mock. -/
theorem withdraw_too_soon (l : Lock) (now : Nat) (caller : Address)
    (h : now < l.unlockTime) :
    l.withdraw now caller = Except.error "You can't withdraw yet"
      ∧ (FakeLock.mk l none).withdraw now caller
        = Except.error "You can't withdraw yet" := by
  constructor
  · simp [Lock.withdraw, h]
  · simp [FakeLock.withdraw, Lock.withdraw, h]

/-- Witness for C4: a non-owner call at time 3 on a lock unlocking at 10
is rejected as too soon. -/
theorem withdraw_too_soon_witness :
    (3 : Nat) < 10
      ∧ (Lock.withdraw ⟨10, 1, 5⟩ 3 2 = Except.error "You can't withdraw yet"
        ∧ (FakeLock.mk ⟨10, 1, 5⟩ none).withdraw 3 2
          = Except.error "You can't withdraw yet") :=
  ⟨by decide, withdraw_too_soon ⟨10, 1, 5⟩ 3 2 (by decide)⟩

/-- Claim C5: for every account that is not the owner, calling withdraw
once the block timestamp has reached `unlockTime` fails with exactly
"You aren't the owner", both on the raw contract and through an unstubbed
mock. -/
theorem withdraw_not_owner (l : Lock) (now : Nat) (caller : Address)
    (h1 : l.unlockTime ≤ now) (h2 : caller ≠ l.owner) :
    l.withdraw now caller = Except.error "You aren't the owner"
      ∧ (FakeLock.mk l none).withdraw now caller
        = Except.error "You aren't the owner" := by
  constructor
  · simp [Lock.withdraw, Nat.not_lt.mpr h1, h2]
  · simp [FakeLock.withdraw, Lock.withdraw, Nat.not_lt.mpr h1, h2]

/-- Witness for C5: account 2 calling at the unlock time on a lock owned
by account 1 is rejected as not the owner. -/
theorem withdraw_not_owner_witness :
    (10 : Nat) ≤ 10 ∧ (2 : Address) ≠ 1
      ∧ (Lock.withdraw ⟨10, 1, 5⟩ 10 2 = Except.error "You aren't the owner"
        ∧ (FakeLock.mk ⟨10, 1, 5⟩ none).withdraw 10 2
          = Except.error "You aren't the owner") :=
  ⟨by decide, by decide, withdraw_not_owner ⟨10, 1, 5⟩ 10 2 (by decide) (by decide)⟩

/-- Claim C6: on a fixture-deployed mocked lock, once the block timestamp
has reached `unlockTime` the owner's withdraw succeeds and emits exactly
one Withdrawal event whose amount equals the locked amount (1 ether). -/
theorem owner_withdraw_succeeds_one_event (now : Nat) (ownerAddr : Address)
    (f : FakeLock) (hf : deployOneYearLockFixture now ownerAddr = Except.ok f)
    (t : Nat) (ht : f.lock.unlockTime ≤ t) :
    f.withdraw t ownerAddr
      = Except.ok (⟨{ f.lock with balance := 0 }, none⟩,
          [Event.Withdrawal lockedAmount])
      ∧ [Event.Withdrawal lockedAmount].length = 1 := by
  rw [deployOneYearLockFixture_eq] at hf
  cases hf
  refine ⟨?_, rfl⟩
  simp only [FakeLock.withdraw, Lock.withdraw] at ht ⊢
  simp [Nat.not_lt.mpr ht, lockedAmount, parseEtherOne, setBalanceLiteral]

/-- Witness for C6: the fixture deployed at time 0 with owner account 1,
withdrawn by the owner exactly at the unlock time. -/
theorem owner_withdraw_succeeds_one_event_witness :
    (deployOneYearLockFixture 0 1
        = Except.ok ⟨⟨ONE_YEAR_IN_SECS, 1, setBalanceLiteral⟩, none⟩)
      ∧ ((⟨⟨ONE_YEAR_IN_SECS, 1, setBalanceLiteral⟩, none⟩ : FakeLock).withdraw
            ONE_YEAR_IN_SECS 1
          = Except.ok (⟨⟨ONE_YEAR_IN_SECS, 1, 0⟩, none⟩,
              [Event.Withdrawal lockedAmount])
        ∧ [Event.Withdrawal lockedAmount].length = 1) := by
  constructor
  · exact deployOneYearLockFixture_eq 0 1
  · exact owner_withdraw_succeeds_one_event 0 1 _ (deployOneYearLockFixture_eq 0 1)
      ONE_YEAR_IN_SECS (Nat.le_refl _)

/-- Claim C7: immediately after a successful deployment, `unlockTime`
equals the timestamp passed to the constructor and `owner` equals the
deploying account. -/
theorem deploy_sets_unlockTime_and_owner (now unlockT : Nat)
    (deployer : Address) (value : Nat) (l : Lock)
    (h : deployLock now unlockT deployer value = Except.ok l) :
    l.unlockTime = unlockT ∧ l.owner = deployer := by
  unfold deployLock at h
  split at h
  · cases h
    exact ⟨rfl, rfl⟩
  · cases h

/-- Witness for C7: a concrete successful deployment at time 0 with
unlock time 10, deployer 3 and value 7. -/
theorem deploy_sets_unlockTime_and_owner_witness :
    deployLock 0 10 3 7 = Except.ok ⟨10, 3, 7⟩
      ∧ ((⟨10, 3, 7⟩ : Lock).unlockTime = 10 ∧ (⟨10, 3, 7⟩ : Lock).owner = 3) :=
  ⟨rfl, deploy_sets_unlockTime_and_owner 0 10 3 7 ⟨10, 3, 7⟩ rfl⟩

/-- Claim C8: immediately after the fixture's deployment completes, the
balance of the deployed mocked contract equals the locked amount of
1 ether. -/
theorem fixture_balance_is_locked_amount (now : Nat) (ownerAddr : Address)
    (f : FakeLock) (h : deployOneYearLockFixture now ownerAddr = Except.ok f) :
    f.lock.balance = lockedAmount := by
  rw [deployOneYearLockFixture_eq] at h
  cases h
  show setBalanceLiteral = lockedAmount
  norm_num [setBalanceLiteral, lockedAmount, parseEtherOne]

/-- Witness for C8: the fixture deployed at time 0 with owner account 1
has balance equal to the locked amount. -/
theorem fixture_balance_is_locked_amount_witness :
    deployOneYearLockFixture 0 1
        = Except.ok ⟨⟨ONE_YEAR_IN_SECS, 1, setBalanceLiteral⟩, none⟩
      ∧ (⟨⟨ONE_YEAR_IN_SECS, 1, setBalanceLiteral⟩, none⟩ : FakeLock).lock.balance
        = lockedAmount :=
  ⟨deployOneYearLockFixture_eq 0 1,
    fixture_balance_is_locked_amount 0 1 _ (deployOneYearLockFixture_eq 0 1)⟩

/-- Counterexample to C9 as stated: from the state reached by a successful
withdraw (lock ⟨10, 1, 5⟩ withdrawn by owner 1 at time 20, leaving balance
0), a second withdraw by the owner at time 20 succeeds again (withdrawing
0), so a second successful withdraw does exist. -/
theorem second_withdraw_succeeds_counterexample :
    Lock.withdraw ⟨10, 1, 5⟩ 20 1
        = Except.ok (⟨10, 1, 0⟩, [Event.Withdrawal 5])
      ∧ Lock.withdraw ⟨10, 1, 0⟩ 20 1
        = Except.ok (⟨10, 1, 0⟩, [Event.Withdrawal 0]) :=
  ⟨rfl, rfl⟩

/-- Claim C9 as amended: after a successful withdraw the balance is 0 and
the state is terminal in the sense that no subsequent withdraw ever
mutates it again — every later withdraw either reverts or succeeds while
leaving the state unchanged, withdrawing amount 0. -/
theorem withdraw_terminal_amended (l l2 : Lock) (now : Nat) (caller : Address)
    (evs : List Event) (h : l.withdraw now caller = Except.ok (l2, evs)) :
    l2.balance = 0
      ∧ ∀ now2 caller2,
          l2.withdraw now2 caller2 = Except.error "You can't withdraw yet"
          ∨ l2.withdraw now2 caller2 = Except.error "You aren't the owner"
          ∨ l2.withdraw now2 caller2 = Except.ok (l2, [Event.Withdrawal 0]) := by
  unfold Lock.withdraw at h
  split at h
  · cases h
  · split at h
    · cases h
      refine ⟨rfl, ?_⟩
      intro now2 caller2
      unfold Lock.withdraw
      split
      · exact Or.inl rfl
      · split
        · exact Or.inr (Or.inr rfl)
        · exact Or.inr (Or.inl rfl)
    · cases h

/-- Witness for the amended C9 at the state left by a concrete successful
withdraw: the balance is 0 and a second withdraw at time 20 by the owner
leaves the state unchanged, withdrawing 0. -/
theorem withdraw_terminal_amended_witness :
    (⟨10, 1, 0⟩ : Lock).balance = 0
      ∧ (Lock.withdraw ⟨10, 1, 0⟩ 20 1 = Except.error "You can't withdraw yet"
        ∨ Lock.withdraw ⟨10, 1, 0⟩ 20 1 = Except.error "You aren't the owner"
        ∨ Lock.withdraw ⟨10, 1, 0⟩ 20 1
          = Except.ok (⟨10, 1, 0⟩, [Event.Withdrawal 0])) := by
  have h := withdraw_terminal_amended ⟨10, 1, 5⟩ ⟨10, 1, 0⟩ 20 1
    [Event.Withdrawal 5] rfl
  exact ⟨h.1, h.2 20 1⟩

/-- Claim C10: the fixture's mocked deployment attaches no value, and the
hexadecimal literal injected by hardhat_setBalance equals 10^18 wei, which
is exactly parseEther("1"), the fixture's lockedAmount; the pre-injection
balance of the deployed mock is 0. -/
theorem fixture_injected_balance_constants :
    fixtureDeployValue = 0
      ∧ setBalanceLiteral = 10 ^ 18
      ∧ setBalanceLiteral = parseEtherOne
      ∧ setBalanceLiteral = lockedAmount
      ∧ ∀ now ownerAddr,
          deployLock now (now + ONE_YEAR_IN_SECS) ownerAddr fixtureDeployValue
            = Except.ok ⟨now + ONE_YEAR_IN_SECS, ownerAddr, 0⟩ := by
  refine ⟨rfl, by norm_num [setBalanceLiteral],
    by norm_num [setBalanceLiteral, parseEtherOne],
    by norm_num [setBalanceLiteral, lockedAmount, parseEtherOne], ?_⟩
  intro now ownerAddr
  have h : now < now + ONE_YEAR_IN_SECS := by simp [ONE_YEAR_IN_SECS]
  simp [deployLock, fixtureDeployValue, h]

end SmockViem
